import Mathlib

/-!
Verification of the note-to-blocks formatter and page-creation helpers of
`notion_integration.py` (class `NotionIntegration`).

The Python code is shallowly embedded over `List Char`:
* `pyStrip` models Python `str.strip()` (whitespace at both ends),
* `stripHashEnds` models `str.strip('#')`,
* `splitNN` models `str.split('\n\n')`, `splitN1` models `str.split('\n')`,
* `countHash` models `len(para) - len(para.lstrip('#'))`,
* `formatTs` models `datetime.strftime('%Y-%m-%d %H:%M')` on a record of
  calendar fields, standing for the ambient `datetime.now()` reading,
* `formatNotesAsBlocks` models `_format_notes_as_blocks`,
* `createPageRequest` models the page-payload construction of
  `create_page_with_notes` up to the HTTP boundary,
* `quickNote` models `quick_note`.
-/

/-- The whitespace characters removed by Python `str.strip()` on ASCII text. -/
def pyIsSpace (c : Char) : Bool :=
  c = ' ' || c = '\t' || c = '\n' || c = '\r' || c = '\x0b' || c = '\x0c'

/-- Remove the characters satisfying `p` from both ends of a list
(the semantics of Python `str.strip(chars)`). -/
def stripEndsWhich (p : Char → Bool) (s : List Char) : List Char :=
  ((s.dropWhile p).reverse.dropWhile p).reverse

/-- Python `s.strip()`. -/
def pyStrip (s : List Char) : List Char :=
  stripEndsWhich pyIsSpace s

/-- Python `s.strip('#')`: all leading and trailing `'#'` characters removed,
one pass at each end. -/
def stripHashEnds (s : List Char) : List Char :=
  stripEndsWhich (fun c => c = '#') s

/-- Python `s.startswith(p)` for a literal character list `p`. -/
def pyStartsWith : List Char → List Char → Bool
  | [], _ => true
  | _ :: _, [] => false
  | p :: ps, c :: cs => p = c && pyStartsWith ps cs

/-- Python `s.split('\n\n')`: non-overlapping left-to-right splitting on the
two-character separator; the empty string yields `[[]]`. -/
def splitNN : List Char → List (List Char)
  | [] => [[]]
  | '\n' :: '\n' :: rest => [] :: splitNN rest
  | c :: rest =>
    match splitNN rest with
    | [] => [[c]]
    | h :: t => (c :: h) :: t

/-- Python `s.split('\n')`. -/
def splitN1 : List Char → List (List Char)
  | [] => [[]]
  | '\n' :: rest => [] :: splitN1 rest
  | c :: rest =>
    match splitN1 rest with
    | [] => [[c]]
    | h :: t => (c :: h) :: t

/-- Python `len(para) - len(para.lstrip('#'))`: the number of leading `'#'`
characters of the raw paragraph. -/
def countHash (s : List Char) : Nat :=
  (s.takeWhile (fun c => c = '#')).length

/-- `line.strip().startswith(('- ', '* '))` applied to an already-stripped
list: does it start with a dash-space or star-space bullet marker? -/
def isBulletLead (s : List Char) : Bool :=
  pyStartsWith ['-', ' '] s || pyStartsWith ['*', ' '] s

/-- The calendar fields read from `datetime.now()`. -/
structure Ts where
  year : Nat
  month : Nat
  day : Nat
  hour : Nat
  minute : Nat
deriving DecidableEq

/-- Decimal digits of `n` left-padded with `'0'` to width `k`, as `strftime`
zero-padded fields print. -/
def padZero (k n : Nat) : List Char :=
  List.replicate (k - (Nat.toDigits 10 n).length) '0' ++ Nat.toDigits 10 n

/-- `datetime.strftime('%Y-%m-%d %H:%M')`. -/
def formatTs (t : Ts) : List Char :=
  padZero 4 t.year ++ ['-'] ++ padZero 2 t.month ++ ['-'] ++ padZero 2 t.day
    ++ [' '] ++ padZero 2 t.hour ++ [':'] ++ padZero 2 t.minute

/-- A Notion block as built by `_format_notes_as_blocks`: the variant tag and
the single rich-text content string.  `heading lvl` stands for the block type
string `"heading_<lvl>"` the code interpolates. -/
inductive Block where
  | heading (level : Nat) (text : List Char)
  | bullet (text : List Char)
  | paragraph (text : List Char)
deriving DecidableEq

/-- The rich-text content of a block. -/
def blockText : Block → List Char
  | Block.heading _ t => t
  | Block.bullet t => t
  | Block.paragraph t => t

/-- The synthetic first block: `heading_3` with content
`"Created by Claude Code - " + now.strftime('%Y-%m-%d %H:%M')`. -/
def tsHeadingBlock (now : Ts) : Block :=
  Block.heading 3 (String.toList "Created by Claude Code - " ++ formatTs now)

/-- The inner loop of the list branch: for each line of the stripped
paragraph, if `line.strip()` starts with a bullet marker, append a
`bulleted_list_item` whose content is `line.strip()[2:]`. -/
def bulletLineBlocks (lines : List (List Char)) : List Block :=
  lines.foldl
    (fun acc line =>
      if isBulletLead (pyStrip line) then
        acc ++ [Block.bullet (List.drop 2 (pyStrip line))]
      else acc)
    []

/-- The per-paragraph body of the loop of `_format_notes_as_blocks`:
skip blank paragraphs; a paragraph whose stripped form starts with `"- "` or
`"* "` becomes bullet items; else one starting with `'#'` becomes a heading of
level `min(len(para) - len(para.lstrip('#')), 3)` with content
`para.strip('#').strip()`; else one `paragraph` block with content
`para.strip()`. -/
def paraBlocks (para : List Char) : List Block :=
  if pyStrip para = [] then []
  else if isBulletLead (pyStrip para) then
    bulletLineBlocks (splitN1 (pyStrip para))
  else if pyStartsWith ['#'] (pyStrip para) then
    [Block.heading (min (countHash para) 3) (pyStrip (stripHashEnds para))]
  else
    [Block.paragraph (pyStrip para)]

/-- `_format_notes_as_blocks(notes)`: the timestamp heading first, then the
loop over `notes.strip().split('\n\n')` appending each paragraph's blocks.
The `now` argument models the ambient `datetime.now()` reading. -/
def formatNotesAsBlocks (notes : List Char) (now : Ts) : List Block :=
  (splitNN (pyStrip notes)).foldl
    (fun acc para => acc ++ paraBlocks para)
    [tsHeadingBlock now]

/-- Concatenation of the images of `f`, in order. -/
def concatMap (f : α → List β) : List α → List β
  | [] => []
  | x :: xs => f x ++ concatMap f xs

/-- The relevant fields of the loaded `notion_config.json`. -/
structure NotionConfig where
  defaultDatabaseId : String
  defaultTags : List String
deriving DecidableEq

/-- The page-creation payload assembled by `create_page_with_notes`: parent
database, title property, and the `multi_select` tag names. -/
structure PageRequest where
  parentDatabaseId : String
  title : List Char
  tagNames : List String
deriving DecidableEq

/-- `if not tags: tags = self.config["default_tags"]` — Python falsiness of
the optional argument: `None` and `[]` both select the configured defaults. -/
def effectiveTags (tags : Option (List String)) (cfgDefault : List String) : List String :=
  match tags with
  | none => cfgDefault
  | some [] => cfgDefault
  | some ts => ts

/-- The `page_data` payload of `create_page_with_notes(title, notes, tags)`
up to the HTTP boundary. -/
def createPageRequest (cfg : NotionConfig) (title : List Char)
    (tags : Option (List String)) : PageRequest :=
  { parentDatabaseId := cfg.defaultDatabaseId
    title := title
    tagNames := effectiveTags tags cfg.defaultTags }

/-- The title computed by `quick_note(content)`: the first line of
`content.strip()` when it is shorter than 100 characters (truncated to 50
characters plus `"..."` when longer than 50), else
`"Quick Note - " + now.strftime('%Y-%m-%d %H:%M')`. -/
def quickNoteTitle (content : List Char) (now : Ts) : List Char :=
  match splitN1 (pyStrip content) with
  | [] => String.toList "Quick Note - " ++ formatTs now
  | l0 :: _ =>
    if l0.length < 100 then
      if l0.length > 50 then List.take 50 l0 ++ String.toList "..." else l0
    else String.toList "Quick Note - " ++ formatTs now

/-- `quick_note(content)`: create the page with the inferred title and the
literal tag list `["DAILY", "PRODUCTIVITY"]`. -/
def quickNote (cfg : NotionConfig) (content : List Char) (now : Ts) : PageRequest :=
  createPageRequest cfg (quickNoteTitle content now) (some ["DAILY", "PRODUCTIVITY"])

/-- A fixed sample clock reading. -/
def t2024 : Ts := ⟨2024, 3, 5, 14, 7⟩

/-- A second, distinct sample clock reading. -/
def t2025 : Ts := ⟨2025, 1, 1, 0, 0⟩

/-- A sample configuration record. -/
def cfg0 : NotionConfig := ⟨"db-0000", ["CLAUDE", "NOTES"]⟩

/-- The blocks contributed by one line of a list paragraph. -/
def lineBlock (line : List Char) : List Block :=
  if isBulletLead (pyStrip line) then [Block.bullet (List.drop 2 (pyStrip line))]
  else []

/-- Reading of the spec's heading-text rule, for comparison with the code:
the paragraph with every leading and trailing character that is a `'#'` or
whitespace removed. -/
def specHeadingText (s : List Char) : List Char :=
  stripEndsWhich (fun c => c = '#' || pyIsSpace c) s

lemma foldl_append_eq_concatMap (f : α → List β) :
    ∀ (l : List α) (init : List β),
      List.foldl (fun acc x => acc ++ f x) init l = init ++ concatMap f l := by
  intro l
  induction l with
  | nil => intro init; simp [concatMap]
  | cons x xs ih =>
    intro init
    simp only [List.foldl_cons, concatMap, ih, List.append_assoc]

lemma bulletFold_eq_concatMap :
    ∀ (lines : List (List Char)) (init : List Block),
      List.foldl
        (fun acc line =>
          if isBulletLead (pyStrip line) then
            acc ++ [Block.bullet (List.drop 2 (pyStrip line))]
          else acc)
        init lines = init ++ concatMap lineBlock lines := by
  intro lines
  induction lines with
  | nil => intro init; simp [concatMap]
  | cons line rest ih =>
    intro init
    by_cases h : isBulletLead (pyStrip line) = true
    · simp only [List.foldl_cons, h, if_true, ih, concatMap, lineBlock,
        List.append_assoc, List.singleton_append]
    · simp only [List.foldl_cons, Bool.not_eq_true] at h ⊢
      simp only [h, Bool.false_eq_true, if_false, ih, concatMap, lineBlock,
        List.nil_append]

lemma bulletLineBlocks_eq (lines : List (List Char)) :
    bulletLineBlocks lines = concatMap lineBlock lines := by
  have h := bulletFold_eq_concatMap lines []
  simpa [bulletLineBlocks] using h

lemma formatNotesAsBlocks_decomp (notes : List Char) (now : Ts) :
    formatNotesAsBlocks notes now =
      tsHeadingBlock now :: concatMap paraBlocks (splitNN (pyStrip notes)) := by
  unfold formatNotesAsBlocks
  rw [foldl_append_eq_concatMap]
  rfl

lemma concatMap_eq_nil_iff (f : α → List β) (l : List α) :
    concatMap f l = [] ↔ ∀ x ∈ l, f x = [] := by
  induction l with
  | nil => simp [concatMap]
  | cons x xs ih => simp [concatMap, ih]

lemma concatMap_lineBlock_eq_filterMap (lines : List (List Char)) :
    concatMap lineBlock lines =
      List.filterMap
        (fun line =>
          if isBulletLead (pyStrip line) then
            some (Block.bullet (List.drop 2 (pyStrip line)))
          else none)
        lines := by
  induction lines with
  | nil => rfl
  | cons line rest ih =>
    by_cases h : isBulletLead (pyStrip line) = true
    · simp [concatMap, lineBlock, h, ih]
    · simp only [Bool.not_eq_true] at h
      simp [concatMap, lineBlock, h, ih]

lemma isBulletLead_ne_nil {s : List Char} (h : isBulletLead s = true) : s ≠ [] := by
  intro hnil
  subst hnil
  simp [isBulletLead, pyStartsWith] at h

/-- C1: for every input string and clock reading, the formatter's output is
the level-3 heading `"Created by Claude Code - <YYYY-MM-DD HH:MM>"` followed
by the content-derived blocks, so this heading is unconditionally the first
block. -/
theorem c1_first_block_heading (notes : List Char) (now : Ts) :
    formatNotesAsBlocks notes now =
      Block.heading 3 (String.toList "Created by Claude Code - " ++ formatTs now)
        :: concatMap paraBlocks (splitNN (pyStrip notes)) := by
  rw [formatNotesAsBlocks_decomp]
  rfl

/-- C2 counterexample: the input `"- \nx"` is a single paragraph that is
non-empty after trimming, yet the formatter emits no block for it (only the
timestamp heading): its trimmed form starts with `"- "`, so it is treated as
a list paragraph, and neither of its lines survives the per-line bullet
check (`"- ".strip()` is `"-"`). -/
theorem c2_counterexample :
    pyStrip (String.toList "- \nx") ≠ [] ∧
    splitNN (pyStrip (String.toList "- \nx")) = [String.toList "- \nx"] ∧
    formatNotesAsBlocks (String.toList "- \nx") t2024 = [tsHeadingBlock t2024] := by
  decide

/-- C2 amended: a paragraph blank after trimming contributes no block; a
non-blank paragraph that is not a list paragraph contributes at least one
block; a list paragraph contributes no block exactly when every one of its
lines fails the bullet-marker check after trimming. -/
theorem c2_amended_paragraph_blocks (para : List Char) :
    (pyStrip para = [] → paraBlocks para = []) ∧
    (pyStrip para ≠ [] → isBulletLead (pyStrip para) = false →
      paraBlocks para ≠ []) ∧
    (isBulletLead (pyStrip para) = true →
      (paraBlocks para = [] ↔
        ∀ line ∈ splitN1 (pyStrip para), isBulletLead (pyStrip line) = false)) := by
  refine ⟨?_, ?_, ?_⟩
  · intro h
    simp [paraBlocks, h]
  · intro h hb
    unfold paraBlocks
    rw [if_neg h, if_neg (by simp [hb])]
    split <;> simp
  · intro hb
    unfold paraBlocks
    rw [if_neg (isBulletLead_ne_nil hb), if_pos hb, bulletLineBlocks_eq,
      concatMap_eq_nil_iff]
    constructor
    · intro hall line hmem
      have hx := hall line hmem
      by_cases hl : isBulletLead (pyStrip line) = true
      · exfalso
        simp [lineBlock, hl] at hx
      · simpa [Bool.not_eq_true] using hl
    · intro hall line hmem
      simp [lineBlock, hall line hmem]

/-- C2 amended, witness: the plain paragraph `"hello"` is non-blank and not a
list paragraph, so it contributes at least one block. -/
theorem c2_amended_witness : paraBlocks (String.toList "hello") ≠ [] :=
  (c2_amended_paragraph_blocks (String.toList "hello")).2.1 (by decide) (by decide)

/-- C3: for every paragraph whose trimmed form starts with `"- "` or `"* "`,
the formatter emits one bullet item per line whose trimmed form starts with a
bullet marker, with text the trimmed line minus its first two characters, and
drops every other line. -/
theorem c3_list_paragraph_bullets (para : List Char)
    (h : isBulletLead (pyStrip para) = true) :
    paraBlocks para =
      List.filterMap
        (fun line =>
          if isBulletLead (pyStrip line) then
            some (Block.bullet (List.drop 2 (pyStrip line)))
          else none)
        (splitN1 (pyStrip para)) := by
  unfold paraBlocks
  rw [if_neg (isBulletLead_ne_nil h), if_pos h, bulletLineBlocks_eq,
    concatMap_lineBlock_eq_filterMap]

/-- C3 witness: the spec's own example `"- a\n- b"` is a list paragraph and
produces exactly `BulletItem("a")`, `BulletItem("b")`. -/
theorem c3_witness :
    paraBlocks (String.toList "- a\n- b") =
      [Block.bullet (String.toList "a"), Block.bullet (String.toList "b")] := by
  have h := c3_list_paragraph_bullets (String.toList "- a\n- b") (by decide)
  rw [h]
  decide

/-- C4 counterexample: in the input `"a\n\n #x"` the second paragraph trims
to `"#x"` and is classified as a heading, but the leading-`'#'` count is taken
on the raw paragraph `" #x"`, giving level `min(0, 3) = 0`; the claimed clamp
to the range 1..3 would give level 1, not the emitted 0. -/
theorem c4_counterexample :
    formatNotesAsBlocks (String.toList "a\n\n #x") t2024 =
      [tsHeadingBlock t2024, Block.paragraph (String.toList "a"),
        Block.heading 0 (String.toList "#x")] ∧
    min (max (countHash (String.toList " #x")) 1) 3 = 1 ∧
    min (max (countHash (pyStrip (String.toList " #x"))) 1) 3 = 1 := by
  decide

/-- C4 amended: a non-list paragraph whose trimmed form starts with `'#'`
becomes one heading whose level is the count of leading `'#'` characters of
the raw (untrimmed) paragraph clamped only from above to 3; there is no lower
clamp, so a paragraph with whitespace before its `'#'` gets level 0. -/
theorem c4_amended_heading_level (para : List Char)
    (h0 : pyStrip para ≠ [])
    (h1 : isBulletLead (pyStrip para) = false)
    (h2 : pyStartsWith ['#'] (pyStrip para) = true) :
    paraBlocks para =
      [Block.heading (min (countHash para) 3) (pyStrip (stripHashEnds para))] ∧
    min (countHash para) 3 ≤ 3 := by
  constructor
  · unfold paraBlocks
    rw [if_neg h0, if_neg (by simp [h1]), if_pos h2]
  · exact Nat.min_le_right _ _

/-- C4 amended, witness: `"### Sub"` yields a heading of level
`min(3, 3) = 3`. -/
theorem c4_amended_witness :
    paraBlocks (String.toList "### Sub") =
      [Block.heading (min (countHash (String.toList "### Sub")) 3)
        (pyStrip (stripHashEnds (String.toList "### Sub")))] ∧
    min (countHash (String.toList "### Sub")) 3 ≤ 3 :=
  c4_amended_heading_level (String.toList "### Sub") (by decide) (by decide)
    (by decide)

/-- C5 counterexample: on the single paragraph `"# # x"` the code emits
heading text `"# x"` (`para.strip('#').strip()`: one pass of `'#'`-stripping,
then one pass of whitespace-stripping), whereas stripping all leading and
trailing `'#'` characters and whitespace, as the claim states, would give
`"x"`. -/
theorem c5_counterexample :
    formatNotesAsBlocks (String.toList "# # x") t2024 =
      [tsHeadingBlock t2024, Block.heading 1 (String.toList "# x")] ∧
    specHeadingText (String.toList "# # x") = String.toList "x" ∧
    String.toList "# x" ≠ String.toList "x" := by
  decide

/-- C5 amended: the heading text is the raw paragraph with one pass of
leading/trailing `'#'` removal followed by one pass of leading/trailing
whitespace removal; `'#'` characters uncovered after inner whitespace
remain. -/
theorem c5_amended_heading_text (para : List Char)
    (h0 : pyStrip para ≠ [])
    (h1 : isBulletLead (pyStrip para) = false)
    (h2 : pyStartsWith ['#'] (pyStrip para) = true) :
    List.map blockText (paraBlocks para) = [pyStrip (stripHashEnds para)] := by
  unfold paraBlocks
  rw [if_neg h0, if_neg (by simp [h1]), if_pos h2]
  rfl

/-- C5 amended, witness: `"# Title"` yields heading text `"Title"`. -/
theorem c5_amended_witness :
    List.map blockText (paraBlocks (String.toList "# Title")) =
      [pyStrip (stripHashEnds (String.toList "# Title"))] :=
  c5_amended_heading_text (String.toList "# Title") (by decide) (by decide)
    (by decide)

/-- C6: the formatter (a total Lean function translated from the source) is
defined on every input and never returns the empty sequence, and on the empty
string it returns exactly the timestamp heading block. -/
theorem c6_total_empty (notes : List Char) (now : Ts) :
    formatNotesAsBlocks notes now ≠ [] ∧
    formatNotesAsBlocks [] now = [tsHeadingBlock now] := by
  constructor
  · rw [formatNotesAsBlocks_decomp]
    exact List.cons_ne_nil _ _
  · rw [formatNotesAsBlocks_decomp]
    rfl

/-- C7: the formatter is order-preserving — when the input is a blank-line
join of paragraphs that strips and splits back to itself, the output is the
timestamp heading followed by the concatenation, in input order, of each
paragraph's block group; reordering the paragraphs therefore reorders the
groups identically. -/
theorem c7_order_preserving (ps : List (List Char)) (now : Ts)
    (h1 : pyStrip (List.intercalate ['\n', '\n'] ps) =
      List.intercalate ['\n', '\n'] ps)
    (h2 : splitNN (List.intercalate ['\n', '\n'] ps) = ps) :
    formatNotesAsBlocks (List.intercalate ['\n', '\n'] ps) now =
      tsHeadingBlock now :: concatMap paraBlocks ps := by
  rw [formatNotesAsBlocks_decomp, h1, h2]

/-- C7 witness: the spec's example `"Para one\n\nPara two"` produces the two
paragraph blocks in input order after the timestamp heading. -/
theorem c7_witness :
    formatNotesAsBlocks
        (List.intercalate ['\n', '\n']
          [String.toList "Para one", String.toList "Para two"]) t2024 =
      tsHeadingBlock t2024 ::
        concatMap paraBlocks [String.toList "Para one", String.toList "Para two"] :=
  c7_order_preserving [String.toList "Para one", String.toList "Para two"] t2024
    (by decide) (by decide)

/-- C8 counterexample: the timestamp is not a caller-supplied parameter —
`_format_notes_as_blocks` reads `datetime.now()` itself, so the same text
formatted under two different ambient clock readings yields different block
sequences, refuting determinism in the caller-visible arguments alone. -/
theorem c8_counterexample :
    formatNotesAsBlocks (String.toList "x") t2024 ≠
      formatNotesAsBlocks (String.toList "x") t2025 := by
  decide

/-- C8 amended: the formatter is a pure function of the text and the ambient
clock reading taken inside the function: the clock affects only the leading
timestamp heading, and the remaining blocks depend on the text alone. -/
theorem c8_amended_clock_determinism (notes : List Char) (t1 t2 : Ts) :
    (formatNotesAsBlocks notes t1).tail = (formatNotesAsBlocks notes t2).tail ∧
    (formatNotesAsBlocks notes t1).head? = some (tsHeadingBlock t1) := by
  constructor
  · rw [formatNotesAsBlocks_decomp notes t1, formatNotesAsBlocks_decomp notes t2]
    rfl
  · rw [formatNotesAsBlocks_decomp]
    rfl

/-- C9: `create_page_with_notes` applies the configured `default_tags` when
the tags argument is omitted (`None`) or an empty list — both falsy in the
source's `if not tags:` test — and uses a non-empty explicit tag list as
given. -/
theorem c9_default_tags (cfg : NotionConfig) (title : List Char)
    (ts : List String) :
    (createPageRequest cfg title none).tagNames = cfg.defaultTags ∧
    (createPageRequest cfg title (some [])).tagNames = cfg.defaultTags ∧
    (ts ≠ [] → (createPageRequest cfg title (some ts)).tagNames = ts) := by
  refine ⟨rfl, rfl, ?_⟩
  intro h
  cases ts with
  | nil => exact absurd rfl h
  | cons a as => rfl

/-- C9 witness: with a concrete configuration, an explicit non-empty tag list
is applied as given. -/
theorem c9_witness : (createPageRequest cfg0 [] (some ["X"])).tagNames = ["X"] :=
  (c9_default_tags cfg0 [] ["X"]).2.2 (by decide)

lemma quickNoteTitle_cons (content : List Char) (now : Ts) (l0 : List Char)
    (rest : List (List Char)) (h : splitN1 (pyStrip content) = l0 :: rest) :
    quickNoteTitle content now =
      if l0.length < 100 then
        if l0.length > 50 then List.take 50 l0 ++ String.toList "..." else l0
      else String.toList "Quick Note - " ++ formatTs now := by
  unfold quickNoteTitle
  rw [h]

/-- C10: `quick_note` titles the page with the first line of the trimmed
content when it is shorter than 100 characters — truncated to its first 50
characters plus `"..."` when longer than 50 — and otherwise with
`"Quick Note - "` plus the current timestamp; the page is always created
with the tag list `["DAILY", "PRODUCTIVITY"]`. -/
theorem c10_quick_note_title (cfg : NotionConfig) (content : List Char)
    (now : Ts) :
    (quickNote cfg content now).tagNames = ["DAILY", "PRODUCTIVITY"] ∧
    (∀ l0 rest, splitN1 (pyStrip content) = l0 :: rest →
      (l0.length < 100 → l0.length ≤ 50 →
        (quickNote cfg content now).title = l0) ∧
      (l0.length < 100 → 50 < l0.length →
        (quickNote cfg content now).title =
          List.take 50 l0 ++ String.toList "...") ∧
      (¬ l0.length < 100 →
        (quickNote cfg content now).title =
          String.toList "Quick Note - " ++ formatTs now)) := by
  constructor
  · rfl
  · intro l0 rest hsplit
    have htitle : (quickNote cfg content now).title = quickNoteTitle content now :=
      rfl
    refine ⟨?_, ?_, ?_⟩
    · intro hlt hle
      rw [htitle, quickNoteTitle_cons content now l0 rest hsplit,
        if_pos hlt, if_neg (Nat.not_lt.mpr hle)]
    · intro hlt hgt
      rw [htitle, quickNoteTitle_cons content now l0 rest hsplit,
        if_pos hlt, if_pos hgt]
    · intro hge
      rw [htitle, quickNoteTitle_cons content now l0 rest hsplit, if_neg hge]

/-- C10 witness: the content `"hello"` has a short first line, so it becomes
the title unchanged, and the tags are `["DAILY", "PRODUCTIVITY"]`. -/
theorem c10_witness :
    (quickNote cfg0 (String.toList "hello") t2024).title = String.toList "hello" ∧
    (quickNote cfg0 (String.toList "hello") t2024).tagNames =
      ["DAILY", "PRODUCTIVITY"] := by
  have h := c10_quick_note_title cfg0 (String.toList "hello") t2024
  exact ⟨(h.2 (String.toList "hello") [] (by decide)).1 (by decide) (by decide),
    h.1⟩
